import Mathlib

/-!
Shallow embedding of the Wayland platform-extension surface of the windowing
library (src/platform/wayland.rs) together with the spec-described runtime
machinery (dispatcher, runtime setters, window creation) that the extension
traits hook into.  Pure Rust functions become Lean functions; the builder
setters are record updates exactly mirroring the source assignments; machine
integers i32 are Int with an explicit range predicate where the width matters.
-/

namespace WinitWayland

/-- Range of a signed 32-bit machine integer, the type of every pixel and
margin value in the source. -/
def isI32 (z : Int) : Prop := -2147483648 ≤ z ∧ z < 2147483648

instance (z : Int) : Decidable (isI32 z) := by
  unfold isI32
  infer_instance

/-- WLR Layer Shell layer type from the source enum WLRLayer; variants in
source declaration order, Bottom carries the default attribute. -/
inductive WLRLayer where
  | Background
  | Bottom
  | Top
  | Overlay
deriving DecidableEq

/-- Rust Default for WLRLayer: the variant marked default in the source. -/
def WLRLayer.defaultValue : WLRLayer := WLRLayer.Bottom

/-- Rust discriminant of each WLRLayer variant (declaration order). -/
def WLRLayer.ordinal : WLRLayer → Nat
  | .Background => 0
  | .Bottom => 1
  | .Top => 2
  | .Overlay => 3

/-- Modelled from the spec: the compositor protocol's layer enumeration
(zwlr_layer_shell_v1 layer: background 0, bottom 1, top 2, overlay 3), which
the source doc comment says WLRLayer maps directly onto. -/
def zwlrLayerValue : WLRLayer → Nat
  | .Background => 0
  | .Bottom => 1
  | .Top => 2
  | .Overlay => 3

/-- WLR Layer Surface anchor bit set from the source (a bitflags struct over
u32); bits is the underlying u32 bit pattern. -/
structure WLRAnchor where
  bits : Nat
deriving DecidableEq

/-- Source constant TOP = 1 shifted left by 0. -/
def WLRAnchor.TOP : WLRAnchor := ⟨1⟩

/-- Source constant BOTTOM = 1 shifted left by 1. -/
def WLRAnchor.BOTTOM : WLRAnchor := ⟨2⟩

/-- Source constant LEFT = 1 shifted left by 2. -/
def WLRAnchor.LEFT : WLRAnchor := ⟨4⟩

/-- Source constant RIGHT = 1 shifted left by 3. -/
def WLRAnchor.RIGHT : WLRAnchor := ⟨8⟩

/-- bitflags empty value (the Rust Default for the flags struct). -/
def WLRAnchor.emptyFlags : WLRAnchor := ⟨0⟩

/-- bitflags union (the Rust bitwise-or operator on flag values). -/
def WLRAnchor.union (a b : WLRAnchor) : WLRAnchor := ⟨a.bits ||| b.bits⟩

/-- bitflags insert: set the given bits, leaving every other bit as it is. -/
def WLRAnchor.insertFlags (a f : WLRAnchor) : WLRAnchor := a.union f

/-- bitflags contains: every bit of f is present in a. -/
def WLRAnchor.containsFlags (a f : WLRAnchor) : Bool := a.bits &&& f.bits == f.bits

/-- WLR Layer Surface keyboard interactivity from the source enum; None
carries the default attribute. -/
inductive WLRKeyboardInteractivity where
  | None
  | Exclusive
  | OnDemand
deriving DecidableEq

/-- Rust Default for WLRKeyboardInteractivity. -/
def WLRKeyboardInteractivity.defaultValue : WLRKeyboardInteractivity :=
  WLRKeyboardInteractivity.None

/-- WLR exclusive zone from the source enum; None carries the default
attribute, Positive carries an i32 pixel count. -/
inductive WLRExclusiveZone where
  | None
  | IgnoreOthers
  | Positive (pixels : Int)
deriving DecidableEq

/-- Rust Default for WLRExclusiveZone. -/
def WLRExclusiveZone.defaultValue : WLRExclusiveZone := WLRExclusiveZone.None

/-- ApplicationName from platform_impl, as constructed by the source call
ApplicationName::new(general, instance); instance is stored but has no
observable effect elsewhere. -/
structure ApplicationName where
  general : String
  instance_ : String
deriving DecidableEq

/-- Constructor used by with_name in the source. -/
def ApplicationName.new (general instance_ : String) : ApplicationName :=
  ⟨general, instance_⟩

/-- Modelled from the spec: the generic (non-extension) window-creation
attributes of the builder, out of scope for this fragment (section 1); it
stands in for every configuration field that is not one of the six extension
fields, so that frame conditions can state those fields are untouched. -/
structure GenericWindowAttributes where
  title : String
  visible : Bool
deriving DecidableEq

/-- The Wayland-specific builder fields; the shape (one Option per field) is
determined by the source assignments in WindowBuilderExtWayland, each of which
stores Some(value) into its field. -/
structure WaylandWindowSettings where
  layer_shell : Option WLRLayer
  anchor : Option WLRAnchor
  exclusive_zone : Option WLRExclusiveZone
  margin : Option (Int × Int × Int × Int)
  keyboard_interactivity : Option WLRKeyboardInteractivity
deriving DecidableEq

/-- Modelled from the spec: the builder's Wayland settings before any setter
ran; every field absent (section 3, LayerShellConfig is an optional
aggregate). -/
def WaylandWindowSettings.defaultValue : WaylandWindowSettings :=
  ⟨none, none, none, none, none⟩

/-- The platform-specific part of the window builder touched by the source:
the application name and the Wayland settings. -/
structure PlatformSpecificWindowAttributes where
  name : Option ApplicationName
  wayland : WaylandWindowSettings
deriving DecidableEq

/-- The window builder as the source setters see it: generic attributes plus
the platform-specific record. -/
structure WindowBuilder where
  window : GenericWindowAttributes
  platform_specific : PlatformSpecificWindowAttributes
deriving DecidableEq

/-- Source with_name: stores Some(ApplicationName::new(general, instance)). -/
def WindowBuilder.with_name (b : WindowBuilder) (general instance_ : String) :
    WindowBuilder :=
  { b with platform_specific :=
      { b.platform_specific with
          name := some (ApplicationName.new general instance_) } }

/-- Source with_layer_shell: stores Some(layer) into layer_shell. -/
def WindowBuilder.with_layer_shell (b : WindowBuilder) (layer : WLRLayer) :
    WindowBuilder :=
  { b with platform_specific :=
      { b.platform_specific with wayland :=
          { b.platform_specific.wayland with layer_shell := some layer } } }

/-- Source with_anchor: stores Some(anchor). -/
def WindowBuilder.with_anchor (b : WindowBuilder) (anchor : WLRAnchor) :
    WindowBuilder :=
  { b with platform_specific :=
      { b.platform_specific with wayland :=
          { b.platform_specific.wayland with anchor := some anchor } } }

/-- Source with_exclusive_zone: stores Some(exclusive_zone). -/
def WindowBuilder.with_exclusive_zone (b : WindowBuilder)
    (exclusive_zone : WLRExclusiveZone) : WindowBuilder :=
  { b with platform_specific :=
      { b.platform_specific with wayland :=
          { b.platform_specific.wayland with
              exclusive_zone := some exclusive_zone } } }

/-- Source with_margin: stores Some((top, right, bottom, left)) in exactly
that tuple order. -/
def WindowBuilder.with_margin (b : WindowBuilder) (top right bottom left : Int) :
    WindowBuilder :=
  { b with platform_specific :=
      { b.platform_specific with wayland :=
          { b.platform_specific.wayland with
              margin := some (top, right, bottom, left) } } }

/-- Source with_keyboard_interactivity: stores Some(keyboard_interactivity). -/
def WindowBuilder.with_keyboard_interactivity (b : WindowBuilder)
    (keyboard_interactivity : WLRKeyboardInteractivity) : WindowBuilder :=
  { b with platform_specific :=
      { b.platform_specific with wayland :=
          { b.platform_specific.wayland with
              keyboard_interactivity := some keyboard_interactivity } } }

/-- Modelled from the spec: the margin applied at window creation; an absent
builder margin means the default margin, all zero, in the fixed order
(top, right, bottom, left). -/
def effectiveMargin (s : WaylandWindowSettings) : Int × Int × Int × Int :=
  s.margin.getD (0, 0, 0, 0)

/-- Backend kind (platform_impl Backend); the source writes the Wayland tag,
the X tag is the other member of the closed BackendKind set of the spec. -/
inductive Backend where
  | Wayland
  | X
deriving DecidableEq

/-- The platform-specific event-loop attributes written by the source:
an optional forced backend and the any_thread flag. -/
structure PlatformSpecificEventLoopAttributes where
  forced_backend : Option Backend
  any_thread : Bool
deriving DecidableEq

/-- Modelled from the spec: EventLoopConfig defaults before construction,
no forced backend and any_thread false (section 3). -/
def PlatformSpecificEventLoopAttributes.defaultValue :
    PlatformSpecificEventLoopAttributes :=
  ⟨none, false⟩

/-- The event-loop builder as the source setters see it. -/
structure EventLoopBuilder where
  platform_specific : PlatformSpecificEventLoopAttributes
deriving DecidableEq

/-- Source with_wayland: forced_backend becomes Some(Backend::Wayland). -/
def EventLoopBuilder.with_wayland (b : EventLoopBuilder) : EventLoopBuilder :=
  { b with platform_specific :=
      { b.platform_specific with forced_backend := some Backend.Wayland } }

/-- Source with_any_thread: any_thread becomes exactly the given flag. -/
def EventLoopBuilder.with_any_thread (b : EventLoopBuilder) (any_thread : Bool) :
    EventLoopBuilder :=
  { b with platform_specific :=
      { b.platform_specific with any_thread := any_thread } }

/-- The backend-side monitor record; it already holds the native identifier. -/
structure MonitorInner where
  id : Nat
deriving DecidableEq

/-- The accessor the source calls: self.inner.native_identifier(). -/
def MonitorInner.native_identifier (m : MonitorInner) : Nat := m.id

/-- The generic monitor handle wrapping the backend record, as dereferenced by
MonitorHandleExtWayland. -/
structure MonitorHandle where
  inner : MonitorInner
deriving DecidableEq

/-- Source native_id: returns self.inner.native_identifier(); the handle is
returned alongside the value so that statelessness is explicit in the
embedding (the second component is the post-call state). -/
def MonitorHandle.native_id (m : MonitorHandle) : Nat × MonitorHandle :=
  (m.inner.native_identifier, m)

/-- A sequence of native_id calls threading the handle state through, and the
list of values observed; used to state that repeated calls agree. -/
def nativeIdCalls (m : MonitorHandle) : Nat → List Nat × MonitorHandle
  | 0 => ([], m)
  | n + 1 =>
      let r := m.native_id
      let rest := nativeIdCalls r.2 n
      (r.1 :: rest.1, rest.2)

/-- Modelled from the spec: the live Wayland-variant window's shell-surface
state, the target of the runtime setter operations of section 4.4. -/
structure WaylandWindowState where
  layer : WLRLayer
  anchor : WLRAnchor
  exclusive_zone : WLRExclusiveZone
  margin : Int × Int × Int × Int
  keyboard_interactivity : WLRKeyboardInteractivity
deriving DecidableEq

/-- Modelled from the spec: a non-Wayland backend window record (the X11-backed
record of section 3); its content is opaque to the layer-shell operations. -/
structure X11WindowState where
  id : Nat
deriving DecidableEq

/-- Modelled from the spec: BackendWindowVariant, the closed tagged union of
backend-specific native window records behind one generic handle; exactly one
variant is alive per handle and the tag never changes after creation. -/
inductive BackendWindowVariant where
  | wayland (w : WaylandWindowState)
  | x11 (x : X11WindowState)
deriving DecidableEq

/-- Tag test used by the runtime setters' variant check. -/
def BackendWindowVariant.isWayland : BackendWindowVariant → Bool
  | .wayland _ => true
  | .x11 _ => false

/-- The generic window handle: one backend variant for its whole lifetime. -/
structure Window where
  variant : BackendWindowVariant
deriving DecidableEq

/-- Modelled from the spec: the five runtime setter operations of section 4.4
as data, so that a unit of work can be stored in the dispatcher queue. -/
inductive RuntimeCall where
  | set_layer (l : WLRLayer)
  | set_anchor (a : WLRAnchor)
  | set_exclusive_zone (z : WLRExclusiveZone)
  | set_margin (top right bottom left : Int)
  | set_keyboard_interactivity (k : WLRKeyboardInteractivity)
deriving DecidableEq

/-- Name of the attempted operation, for the diagnostic emitted on a
non-Wayland variant. -/
def RuntimeCall.opName : RuntimeCall → String
  | .set_layer _ => "set_layer"
  | .set_anchor _ => "set_anchor"
  | .set_exclusive_zone _ => "set_exclusive_zone"
  | .set_margin _ _ _ _ => "set_margin"
  | .set_keyboard_interactivity _ => "set_keyboard_interactivity"

/-- Modelled from the spec: the native layer-shell protocol requests a unit of
work may issue (semantic protocol of section 6, not wire bytes). -/
inductive NativeRequest where
  | set_layer (l : WLRLayer)
  | set_anchor (a : WLRAnchor)
  | set_exclusive_zone (z : WLRExclusiveZone)
  | set_margin (top right bottom left : Int)
  | set_keyboard_interactivity (k : WLRKeyboardInteractivity)
deriving DecidableEq

/-- Modelled from the spec: the observable outcome of executing one unit of
work: the possibly updated window, the native protocol requests issued, and
the diagnostics emitted. There is no error channel because a runtime setter
never returns an error to the caller. -/
structure SetterOutcome where
  window : Window
  native : List NativeRequest
  diagnostics : List String
deriving DecidableEq

/-- Modelled from the spec: effect of a runtime call on the Wayland-variant
state, together with the native request it issues. -/
def applyToWayland (s : WaylandWindowState) :
    RuntimeCall → WaylandWindowState × NativeRequest
  | .set_layer l => ({ s with layer := l }, .set_layer l)
  | .set_anchor a => ({ s with anchor := a }, .set_anchor a)
  | .set_exclusive_zone z => ({ s with exclusive_zone := z }, .set_exclusive_zone z)
  | .set_margin t r bo le =>
      ({ s with margin := (t, r, bo, le) }, .set_margin t r bo le)
  | .set_keyboard_interactivity k =>
      ({ s with keyboard_interactivity := k }, .set_keyboard_interactivity k)

/-- Modelled from the spec, section 4.4: the unit of work inspects the
window's variant; on the Wayland variant it issues the corresponding native
request; on any other variant it is a silent no-op that only emits a
diagnostic naming the attempted operation and returns — it never raises an
error, and as a total function it neither blocks nor panics. -/
def runRuntimeSetter (w : Window) (c : RuntimeCall) : SetterOutcome :=
  match w.variant with
  | .wayland s =>
      let r := applyToWayland s c
      ⟨⟨.wayland r.1⟩, [r.2], []⟩
  | .x11 _ =>
      ⟨w, [], [c.opName ++ " ignored: window is not a Wayland window"]⟩

/-- Runtime set_layer on the generic window handle. -/
def Window.set_layer (w : Window) (l : WLRLayer) : SetterOutcome :=
  runRuntimeSetter w (.set_layer l)

/-- Runtime set_anchor on the generic window handle. -/
def Window.set_anchor (w : Window) (a : WLRAnchor) : SetterOutcome :=
  runRuntimeSetter w (.set_anchor a)

/-- Runtime set_exclusive_zone on the generic window handle. -/
def Window.set_exclusive_zone (w : Window) (z : WLRExclusiveZone) : SetterOutcome :=
  runRuntimeSetter w (.set_exclusive_zone z)

/-- Runtime set_margin on the generic window handle. -/
def Window.set_margin (w : Window) (top right bottom left : Int) : SetterOutcome :=
  runRuntimeSetter w (.set_margin top right bottom left)

/-- Runtime set_keyboard_interactivity on the generic window handle. -/
def Window.set_keyboard_interactivity (w : Window)
    (k : WLRKeyboardInteractivity) : SetterOutcome :=
  runRuntimeSetter w (.set_keyboard_interactivity k)

/-- Modelled from the spec, section 4.3: the thread-affine dispatcher state
for one window: the owning thread's identity and the FIFO queue of pending
units of work. -/
structure DispatchState where
  ownerThread : Nat
  queue : List RuntimeCall
deriving DecidableEq

/-- Modelled from the spec, section 4.3: submitting a unit of work from thread
caller executes it inline when the caller is the owning thread, and otherwise
appends it to the queue and returns at once with no effect yet; submission is
total and never signals failure. -/
def submit (d : DispatchState) (w : Window) (caller : Nat) (c : RuntimeCall) :
    DispatchState × SetterOutcome :=
  if caller = d.ownerThread then
    (d, runRuntimeSetter w c)
  else
    ({ d with queue := d.queue ++ [c] }, ⟨w, [], []⟩)

/-- The error taxonomy raised at creation time (section 7). -/
inductive OsError where
  | ShellProtocolUnsupported
  | BackendUnavailable
  | BackendThreadViolation
deriving DecidableEq

/-- Modelled from the spec, section 4.2: window creation consumes the builder
once; if a layer-shell layer was requested and the active backend does not
support the shell-surface protocol, creation fails with
ShellProtocolUnsupported and produces no window — all-or-nothing is enforced
by the Except result carrying no window in the error case.  Otherwise the live
window is the Wayland variant built from the accumulated configuration, with
absent fields falling back to their defaults. -/
def createWindow (b : WindowBuilder) (supportsLayerShell : Bool) :
    Except OsError Window :=
  match b.platform_specific.wayland.layer_shell with
  | some layer =>
      if supportsLayerShell then
        Except.ok ⟨.wayland ⟨layer,
          b.platform_specific.wayland.anchor.getD WLRAnchor.emptyFlags,
          b.platform_specific.wayland.exclusive_zone.getD WLRExclusiveZone.None,
          effectiveMargin b.platform_specific.wayland,
          b.platform_specific.wayland.keyboard_interactivity.getD
            WLRKeyboardInteractivity.None⟩⟩
      else
        Except.error OsError.ShellProtocolUnsupported
  | none =>
      Except.ok ⟨.wayland ⟨WLRLayer.defaultValue,
        WLRAnchor.emptyFlags, WLRExclusiveZone.None,
        effectiveMargin b.platform_specific.wayland,
        WLRKeyboardInteractivity.None⟩⟩

/-- The six builder-time setter calls of the Wayland extension as data, so
that arbitrary call sequences can be folded over the builder. -/
inductive BuilderCall where
  | name (general instance_ : String)
  | layer_shell (l : WLRLayer)
  | anchor (a : WLRAnchor)
  | exclusive_zone (z : WLRExclusiveZone)
  | margin (top right bottom left : Int)
  | keyboard_interactivity (k : WLRKeyboardInteractivity)
deriving DecidableEq

/-- Dispatch of one builder call to the corresponding source setter. -/
def applyBuilderCall (b : WindowBuilder) : BuilderCall → WindowBuilder
  | .name g i => b.with_name g i
  | .layer_shell l => b.with_layer_shell l
  | .anchor a => b.with_anchor a
  | .exclusive_zone z => b.with_exclusive_zone z
  | .margin t r bo le => b.with_margin t r bo le
  | .keyboard_interactivity k => b.with_keyboard_interactivity k

/-- A whole sequence of builder setter calls, left to right. -/
def applyBuilderCalls (b : WindowBuilder) (cs : List BuilderCall) : WindowBuilder :=
  cs.foldl applyBuilderCall b

/-- A concrete builder with every extension field absent, for witnesses. -/
def emptyBuilder : WindowBuilder :=
  ⟨⟨"w", true⟩, ⟨none, WaylandWindowSettings.defaultValue⟩⟩

/-- A concrete non-Wayland-variant window, for witnesses. -/
def x11Window : Window := ⟨.x11 ⟨7⟩⟩

/-- Setting further bits with a bitwise or never disturbs bits already
absorbed by a mask: if the mask c is contained in a, it is contained in
a or-ed with anything. -/
lemma or_and_absorb (a b c : Nat) (h : a &&& c = c) : (a ||| b) &&& c = c := by
  apply Nat.eq_of_testBit_eq
  intro i
  have h2 := congrArg (fun x => Nat.testBit x i) h
  simp only [Nat.testBit_and, Nat.testBit_or] at h2 ⊢
  cases ha : Nat.testBit a i <;> cases hb : Nat.testBit b i <;>
    cases hc : Nat.testBit c i <;> simp_all

/-- C2: for all i32 values t, r, b, l the builder margin setter stores the
margin as the tuple (top, right, bottom, left) in exactly that fixed order,
and the default margin (an absent builder field) is all zero. -/
theorem C2_with_margin_order_and_default :
    (∀ (b : WindowBuilder) (t r bo le : Int),
      (b.with_margin t r bo le).platform_specific.wayland.margin
        = some (t, r, bo, le)) ∧
    effectiveMargin WaylandWindowSettings.defaultValue = (0, 0, 0, 0) :=
  ⟨fun _ _ _ _ _ => rfl, rfl⟩

/-- C3: anchor bits are independent and setting one never clears another:
the anchor value TOP or LEFT read back from the builder is exactly that value;
it contains exactly the Top and Left bits, never more, never fewer; inserting
the Bottom bit afterwards yields exactly Top, Left and Bottom; and in general
inserting a flag never clears a flag already contained. -/
theorem C3_anchor_bits_independent :
    (∀ b : WindowBuilder,
      (b.with_anchor (WLRAnchor.TOP.union WLRAnchor.LEFT)).platform_specific.wayland.anchor
        = some (WLRAnchor.TOP.union WLRAnchor.LEFT)) ∧
    ((WLRAnchor.TOP.union WLRAnchor.LEFT).containsFlags WLRAnchor.TOP = true ∧
     (WLRAnchor.TOP.union WLRAnchor.LEFT).containsFlags WLRAnchor.LEFT = true ∧
     (WLRAnchor.TOP.union WLRAnchor.LEFT).containsFlags WLRAnchor.BOTTOM = false ∧
     (WLRAnchor.TOP.union WLRAnchor.LEFT).containsFlags WLRAnchor.RIGHT = false) ∧
    (((WLRAnchor.TOP.union WLRAnchor.LEFT).insertFlags WLRAnchor.BOTTOM).containsFlags WLRAnchor.TOP = true ∧
     ((WLRAnchor.TOP.union WLRAnchor.LEFT).insertFlags WLRAnchor.BOTTOM).containsFlags WLRAnchor.LEFT = true ∧
     ((WLRAnchor.TOP.union WLRAnchor.LEFT).insertFlags WLRAnchor.BOTTOM).containsFlags WLRAnchor.BOTTOM = true ∧
     ((WLRAnchor.TOP.union WLRAnchor.LEFT).insertFlags WLRAnchor.BOTTOM).containsFlags WLRAnchor.RIGHT = false) ∧
    (∀ s f g : WLRAnchor,
      s.containsFlags g = true → (s.insertFlags f).containsFlags g = true) := by
  refine ⟨fun _ => rfl, by decide, by decide, ?_⟩
  intro s f g h
  have h' : s.bits &&& g.bits = g.bits := by
    simpa [WLRAnchor.containsFlags] using h
  show ((s.bits ||| f.bits) &&& g.bits == g.bits) = true
  simpa [WLRAnchor.insertFlags, WLRAnchor.union, WLRAnchor.containsFlags]
    using or_and_absorb s.bits f.bits g.bits h'

/-- Witness for C3: inserting the Bottom bit into the Top anchor keeps the
Top bit set, by the orthogonality part of the theorem at a concrete input. -/
theorem C3_anchor_bits_independent_witness :
    WLRAnchor.TOP.containsFlags WLRAnchor.TOP = true ∧
    (WLRAnchor.TOP.insertFlags WLRAnchor.BOTTOM).containsFlags WLRAnchor.TOP = true :=
  ⟨by decide,
   C3_anchor_bits_independent.2.2.2 WLRAnchor.TOP WLRAnchor.BOTTOM WLRAnchor.TOP
     (by decide)⟩

/-- C4: each of the six builder-time setters is a pure accumulation: it
stores exactly its own value into its own field, leaves the generic window
attributes and every other platform field unchanged, and returns the builder
(all as total pure functions, so no native effect occurs). -/
theorem C4_builder_setters_pure_accumulation :
    (∀ (b : WindowBuilder) (g i : String),
      (b.with_name g i).platform_specific.name = some (ApplicationName.new g i) ∧
      (b.with_name g i).window = b.window ∧
      (b.with_name g i).platform_specific.wayland = b.platform_specific.wayland) ∧
    (∀ (b : WindowBuilder) (l : WLRLayer),
      (b.with_layer_shell l).platform_specific.wayland.layer_shell = some l ∧
      (b.with_layer_shell l).window = b.window ∧
      (b.with_layer_shell l).platform_specific.name = b.platform_specific.name ∧
      (b.with_layer_shell l).platform_specific.wayland.anchor = b.platform_specific.wayland.anchor ∧
      (b.with_layer_shell l).platform_specific.wayland.exclusive_zone = b.platform_specific.wayland.exclusive_zone ∧
      (b.with_layer_shell l).platform_specific.wayland.margin = b.platform_specific.wayland.margin ∧
      (b.with_layer_shell l).platform_specific.wayland.keyboard_interactivity = b.platform_specific.wayland.keyboard_interactivity) ∧
    (∀ (b : WindowBuilder) (a : WLRAnchor),
      (b.with_anchor a).platform_specific.wayland.anchor = some a ∧
      (b.with_anchor a).window = b.window ∧
      (b.with_anchor a).platform_specific.name = b.platform_specific.name ∧
      (b.with_anchor a).platform_specific.wayland.layer_shell = b.platform_specific.wayland.layer_shell ∧
      (b.with_anchor a).platform_specific.wayland.exclusive_zone = b.platform_specific.wayland.exclusive_zone ∧
      (b.with_anchor a).platform_specific.wayland.margin = b.platform_specific.wayland.margin ∧
      (b.with_anchor a).platform_specific.wayland.keyboard_interactivity = b.platform_specific.wayland.keyboard_interactivity) ∧
    (∀ (b : WindowBuilder) (z : WLRExclusiveZone),
      (b.with_exclusive_zone z).platform_specific.wayland.exclusive_zone = some z ∧
      (b.with_exclusive_zone z).window = b.window ∧
      (b.with_exclusive_zone z).platform_specific.name = b.platform_specific.name ∧
      (b.with_exclusive_zone z).platform_specific.wayland.layer_shell = b.platform_specific.wayland.layer_shell ∧
      (b.with_exclusive_zone z).platform_specific.wayland.anchor = b.platform_specific.wayland.anchor ∧
      (b.with_exclusive_zone z).platform_specific.wayland.margin = b.platform_specific.wayland.margin ∧
      (b.with_exclusive_zone z).platform_specific.wayland.keyboard_interactivity = b.platform_specific.wayland.keyboard_interactivity) ∧
    (∀ (b : WindowBuilder) (t r bo le : Int),
      (b.with_margin t r bo le).platform_specific.wayland.margin = some (t, r, bo, le) ∧
      (b.with_margin t r bo le).window = b.window ∧
      (b.with_margin t r bo le).platform_specific.name = b.platform_specific.name ∧
      (b.with_margin t r bo le).platform_specific.wayland.layer_shell = b.platform_specific.wayland.layer_shell ∧
      (b.with_margin t r bo le).platform_specific.wayland.anchor = b.platform_specific.wayland.anchor ∧
      (b.with_margin t r bo le).platform_specific.wayland.exclusive_zone = b.platform_specific.wayland.exclusive_zone ∧
      (b.with_margin t r bo le).platform_specific.wayland.keyboard_interactivity = b.platform_specific.wayland.keyboard_interactivity) ∧
    (∀ (b : WindowBuilder) (k : WLRKeyboardInteractivity),
      (b.with_keyboard_interactivity k).platform_specific.wayland.keyboard_interactivity = some k ∧
      (b.with_keyboard_interactivity k).window = b.window ∧
      (b.with_keyboard_interactivity k).platform_specific.name = b.platform_specific.name ∧
      (b.with_keyboard_interactivity k).platform_specific.wayland.layer_shell = b.platform_specific.wayland.layer_shell ∧
      (b.with_keyboard_interactivity k).platform_specific.wayland.anchor = b.platform_specific.wayland.anchor ∧
      (b.with_keyboard_interactivity k).platform_specific.wayland.exclusive_zone = b.platform_specific.wayland.exclusive_zone ∧
      (b.with_keyboard_interactivity k).platform_specific.wayland.margin = b.platform_specific.wayland.margin) :=
  ⟨fun _ _ _ => ⟨rfl, rfl, rfl⟩,
   fun _ _ => ⟨rfl, rfl, rfl, rfl, rfl, rfl, rfl⟩,
   fun _ _ => ⟨rfl, rfl, rfl, rfl, rfl, rfl, rfl⟩,
   fun _ _ => ⟨rfl, rfl, rfl, rfl, rfl, rfl, rfl⟩,
   fun _ _ _ _ _ => ⟨rfl, rfl, rfl, rfl, rfl, rfl, rfl⟩,
   fun _ _ => ⟨rfl, rfl, rfl, rfl, rfl, rfl, rfl⟩⟩

/-- C6: the event-loop configuration holds an optional forced backend and an
any_thread flag defaulting to false; with_wayland sets the forced backend to
the Wayland kind and with_any_thread sets the flag to exactly its argument,
each leaving the other field unchanged. -/
theorem C6_event_loop_config_setters :
    PlatformSpecificEventLoopAttributes.defaultValue.any_thread = false ∧
    PlatformSpecificEventLoopAttributes.defaultValue.forced_backend = none ∧
    (∀ b : EventLoopBuilder,
      b.with_wayland.platform_specific.forced_backend = some Backend.Wayland ∧
      b.with_wayland.platform_specific.any_thread = b.platform_specific.any_thread) ∧
    (∀ (b : EventLoopBuilder) (x : Bool),
      (b.with_any_thread x).platform_specific.any_thread = x ∧
      (b.with_any_thread x).platform_specific.forced_backend
        = b.platform_specific.forced_backend) :=
  ⟨rfl, rfl, fun _ => ⟨rfl, rfl⟩, fun _ _ => ⟨rfl, rfl⟩⟩

/-- C7: the layer type is the closed variant set Background, Bottom, Top,
Overlay with Bottom as the default, and the ordinal of each variant
(0, 1, 2, 3 in declaration order) maps one-to-one onto the compositor
protocol's layer enumeration. -/
theorem C7_layer_closed_set_and_ordinals :
    WLRLayer.defaultValue = WLRLayer.Bottom ∧
    (∀ l : WLRLayer,
      l = WLRLayer.Background ∨ l = WLRLayer.Bottom ∨
      l = WLRLayer.Top ∨ l = WLRLayer.Overlay) ∧
    List.map WLRLayer.ordinal
      [WLRLayer.Background, WLRLayer.Bottom, WLRLayer.Top, WLRLayer.Overlay]
      = [0, 1, 2, 3] ∧
    (∀ l : WLRLayer, WLRLayer.ordinal l = zwlrLayerValue l) ∧
    (∀ a b : WLRLayer, WLRLayer.ordinal a = WLRLayer.ordinal b → a = b) := by
  refine ⟨rfl, ?_, rfl, ?_, ?_⟩
  · intro l; cases l <;> simp
  · intro l; cases l <;> rfl
  · intro a b h; cases a <;> cases b <;> simp_all [WLRLayer.ordinal]

/-- Witness for C7: the ordinal map is one-to-one at a concrete pair, by the
injectivity part of the theorem. -/
theorem C7_layer_closed_set_and_ordinals_witness :
    WLRLayer.ordinal WLRLayer.Top = WLRLayer.ordinal WLRLayer.Top ∧
    WLRLayer.Top = WLRLayer.Top :=
  ⟨rfl, C7_layer_closed_set_and_ordinals.2.2.2.2 WLRLayer.Top WLRLayer.Top rfl⟩

/-- C9: for every i32 value z, including negative values other than the -1
sentinel, the Positive exclusive-zone variant is constructible and the builder
stores it unchanged: no validation or clamping of the pixel count occurs. -/
theorem C9_exclusive_zone_unvalidated (z : Int) (h : isI32 z) :
    ∀ b : WindowBuilder,
      (b.with_exclusive_zone (WLRExclusiveZone.Positive z)).platform_specific.wayland.exclusive_zone
        = some (WLRExclusiveZone.Positive z) :=
  fun _ => rfl

/-- Witness for C9: the negative pixel count -5 (an i32 that is not the -1
sentinel) is stored unchanged, by the theorem at that concrete input. -/
theorem C9_exclusive_zone_unvalidated_witness :
    isI32 (-5) ∧
    (emptyBuilder.with_exclusive_zone (WLRExclusiveZone.Positive (-5))).platform_specific.wayland.exclusive_zone
      = some (WLRExclusiveZone.Positive (-5)) :=
  ⟨by decide, C9_exclusive_zone_unvalidated (-5) (by decide) emptyBuilder⟩

/-- C1: the five runtime setters exist on the generic window handle and,
invoked on a non-Wayland-variant window, each produces zero native protocol
effects and leaves the window unchanged (returning, as a total function with
no error channel, without blocking, panicking or signalling an error);
moreover a submission through the dispatcher from any thread returns with no
native effect on such a window. -/
theorem C1_runtime_setters_noop_on_non_wayland
    (w : Window) (h : w.variant.isWayland = false) :
    (∀ l, (w.set_layer l).window = w ∧ (w.set_layer l).native = []) ∧
    (∀ a, (w.set_anchor a).window = w ∧ (w.set_anchor a).native = []) ∧
    (∀ z, (w.set_exclusive_zone z).window = w ∧ (w.set_exclusive_zone z).native = []) ∧
    (∀ t r bo le, (w.set_margin t r bo le).window = w ∧
      (w.set_margin t r bo le).native = []) ∧
    (∀ k, (w.set_keyboard_interactivity k).window = w ∧
      (w.set_keyboard_interactivity k).native = []) ∧
    (∀ (d : DispatchState) (caller : Nat) (c : RuntimeCall),
      (submit d w caller c).2.window = w ∧ (submit d w caller c).2.native = []) := by
  obtain ⟨v⟩ := w
  cases v with
  | wayland s => simp [BackendWindowVariant.isWayland] at h
  | x11 x =>
      have hrun : ∀ c : RuntimeCall,
          (runRuntimeSetter ⟨BackendWindowVariant.x11 x⟩ c).window
              = ⟨BackendWindowVariant.x11 x⟩ ∧
          (runRuntimeSetter ⟨BackendWindowVariant.x11 x⟩ c).native = [] := by
        intro c; exact ⟨rfl, rfl⟩
      refine ⟨fun l => hrun _, fun a => hrun _, fun z => hrun _,
        fun t r bo le => hrun _, fun k => hrun _, ?_⟩
      intro d caller c
      by_cases hc : caller = d.ownerThread
      · simpa [submit, hc] using hrun c
      · simp [submit, hc]

/-- Witness for C1: on a concrete X11-variant window, the margin setter
leaves the window unchanged and issues no native request, by the theorem. -/
theorem C1_runtime_setters_noop_on_non_wayland_witness :
    x11Window.variant.isWayland = false ∧
    (x11Window.set_margin 1 2 3 4).window = x11Window ∧
    (x11Window.set_margin 1 2 3 4).native = [] := by
  have h := C1_runtime_setters_noop_on_non_wayland x11Window rfl
  exact ⟨rfl, (h.2.2.2.1 1 2 3 4).1, (h.2.2.2.1 1 2 3 4).2⟩

/-- C5: if a layer-shell layer was requested at builder time and the active
backend does not support the shell-surface protocol, window creation fails
with ShellProtocolUnsupported and no window value is produced — creation is
all-or-nothing. -/
theorem C5_shell_protocol_unsupported_all_or_nothing
    (b : WindowBuilder) (h : b.platform_specific.wayland.layer_shell.isSome = true) :
    createWindow b false = Except.error OsError.ShellProtocolUnsupported ∧
    ∀ w : Window, createWindow b false ≠ Except.ok w := by
  obtain ⟨l, hl⟩ := Option.isSome_iff_exists.mp h
  refine ⟨by simp [createWindow, hl], ?_⟩
  intro w hw
  simp [createWindow, hl] at hw

/-- Witness for C5: a concrete builder that requested the Top layer fails to
create a window on a backend without the protocol, by the theorem. -/
theorem C5_shell_protocol_unsupported_all_or_nothing_witness :
    (emptyBuilder.with_layer_shell WLRLayer.Top).platform_specific.wayland.layer_shell.isSome = true ∧
    createWindow (emptyBuilder.with_layer_shell WLRLayer.Top) false
      = Except.error OsError.ShellProtocolUnsupported :=
  ⟨rfl,
   (C5_shell_protocol_unsupported_all_or_nothing
     (emptyBuilder.with_layer_shell WLRLayer.Top) rfl).1⟩

/-- C8: native_id on a monitor handle is a stateless, side-effect-free
accessor: one call returns the identifier already held by the handle and
leaves the handle unchanged, and any number of repeated calls observes the
same value every time with the handle still unchanged. -/
theorem C8_native_id_stateless (m : MonitorHandle) (n : Nat) :
    m.native_id.2 = m ∧
    m.native_id.1 = m.inner.native_identifier ∧
    (nativeIdCalls m n).2 = m ∧
    (nativeIdCalls m n).1 = List.replicate n m.inner.native_identifier := by
  have hcalls : ∀ k : Nat, (nativeIdCalls m k).2 = m ∧
      (nativeIdCalls m k).1 = List.replicate k m.inner.native_identifier := by
    intro k
    induction k with
    | zero => exact ⟨rfl, rfl⟩
    | succ k ih =>
        refine ⟨?_, ?_⟩
        · show (nativeIdCalls m k).2 = m
          exact ih.1
        · show m.native_id.1 :: (nativeIdCalls m k).1
              = List.replicate (k + 1) m.inner.native_identifier
          rw [List.replicate_succ, ih.2]
          rfl
  exact ⟨rfl, rfl, (hcalls n).1, (hcalls n).2⟩

/-- One builder setter call preserves presence of every already-set field:
each call either writes Some into its own field or leaves a field alone. -/
lemma applyBuilderCall_preserves_isSome (b : WindowBuilder) (c : BuilderCall) :
    (b.platform_specific.name.isSome = true →
      (applyBuilderCall b c).platform_specific.name.isSome = true) ∧
    (b.platform_specific.wayland.layer_shell.isSome = true →
      (applyBuilderCall b c).platform_specific.wayland.layer_shell.isSome = true) ∧
    (b.platform_specific.wayland.anchor.isSome = true →
      (applyBuilderCall b c).platform_specific.wayland.anchor.isSome = true) ∧
    (b.platform_specific.wayland.exclusive_zone.isSome = true →
      (applyBuilderCall b c).platform_specific.wayland.exclusive_zone.isSome = true) ∧
    (b.platform_specific.wayland.margin.isSome = true →
      (applyBuilderCall b c).platform_specific.wayland.margin.isSome = true) ∧
    (b.platform_specific.wayland.keyboard_interactivity.isSome = true →
      (applyBuilderCall b c).platform_specific.wayland.keyboard_interactivity.isSome = true) := by
  cases c <;>
    simp [applyBuilderCall, WindowBuilder.with_name, WindowBuilder.with_layer_shell,
      WindowBuilder.with_anchor, WindowBuilder.with_exclusive_zone,
      WindowBuilder.with_margin, WindowBuilder.with_keyboard_interactivity]

/-- Preservation of any builder property along a whole setter-call sequence. -/
lemma applyBuilderCalls_preserves (P : WindowBuilder → Prop)
    (hstep : ∀ b c, P b → P (applyBuilderCall b c)) :
    ∀ (cs : List BuilderCall) (b : WindowBuilder), P b → P (applyBuilderCalls b cs) := by
  intro cs
  induction cs with
  | nil => intro b hb; simpa [applyBuilderCalls] using hb
  | cons c cs ih =>
      intro b hb
      have hstepb : applyBuilderCalls b (c :: cs)
          = applyBuilderCalls (applyBuilderCall b c) cs := rfl
      rw [hstepb]
      exact ih _ (hstep b c hb)

/-- C10: every Wayland builder setter is last-write-wins on its own field:
calling the same setter with a and then with b leaves the field holding
Some b (so repeating a value equals calling once), and no sequence of
extension setter calls ever returns a previously-set field to the absent
state. -/
theorem C10_builder_setters_last_write_wins :
    (∀ (b : WindowBuilder) (g i g' i' : String),
      ((b.with_name g i).with_name g' i').platform_specific.name
        = some (ApplicationName.new g' i')) ∧
    (∀ (b : WindowBuilder) (x y : WLRLayer),
      ((b.with_layer_shell x).with_layer_shell y).platform_specific.wayland.layer_shell
        = some y) ∧
    (∀ (b : WindowBuilder) (x y : WLRAnchor),
      ((b.with_anchor x).with_anchor y).platform_specific.wayland.anchor = some y) ∧
    (∀ (b : WindowBuilder) (x y : WLRExclusiveZone),
      ((b.with_exclusive_zone x).with_exclusive_zone y).platform_specific.wayland.exclusive_zone
        = some y) ∧
    (∀ (b : WindowBuilder) (t r bo le t2 r2 bo2 le2 : Int),
      ((b.with_margin t r bo le).with_margin t2 r2 bo2 le2).platform_specific.wayland.margin
        = some (t2, r2, bo2, le2)) ∧
    (∀ (b : WindowBuilder) (x y : WLRKeyboardInteractivity),
      ((b.with_keyboard_interactivity x).with_keyboard_interactivity y).platform_specific.wayland.keyboard_interactivity
        = some y) ∧
    (∀ (b : WindowBuilder) (cs : List BuilderCall),
      (b.platform_specific.name.isSome = true →
        (applyBuilderCalls b cs).platform_specific.name.isSome = true) ∧
      (b.platform_specific.wayland.layer_shell.isSome = true →
        (applyBuilderCalls b cs).platform_specific.wayland.layer_shell.isSome = true) ∧
      (b.platform_specific.wayland.anchor.isSome = true →
        (applyBuilderCalls b cs).platform_specific.wayland.anchor.isSome = true) ∧
      (b.platform_specific.wayland.exclusive_zone.isSome = true →
        (applyBuilderCalls b cs).platform_specific.wayland.exclusive_zone.isSome = true) ∧
      (b.platform_specific.wayland.margin.isSome = true →
        (applyBuilderCalls b cs).platform_specific.wayland.margin.isSome = true) ∧
      (b.platform_specific.wayland.keyboard_interactivity.isSome = true →
        (applyBuilderCalls b cs).platform_specific.wayland.keyboard_interactivity.isSome = true)) := by
  refine ⟨fun _ _ _ _ _ => rfl, fun _ _ _ => rfl, fun _ _ _ => rfl,
    fun _ _ _ => rfl, fun _ _ _ _ _ _ _ _ _ => rfl, fun _ _ _ => rfl, ?_⟩
  intro b cs
  exact ⟨applyBuilderCalls_preserves _
      (fun b c => (applyBuilderCall_preserves_isSome b c).1) cs b,
    applyBuilderCalls_preserves _
      (fun b c => (applyBuilderCall_preserves_isSome b c).2.1) cs b,
    applyBuilderCalls_preserves _
      (fun b c => (applyBuilderCall_preserves_isSome b c).2.2.1) cs b,
    applyBuilderCalls_preserves _
      (fun b c => (applyBuilderCall_preserves_isSome b c).2.2.2.1) cs b,
    applyBuilderCalls_preserves _
      (fun b c => (applyBuilderCall_preserves_isSome b c).2.2.2.2.1) cs b,
    applyBuilderCalls_preserves _
      (fun b c => (applyBuilderCall_preserves_isSome b c).2.2.2.2.2) cs b⟩

/-- Witness for C10: on a concrete builder, anchoring twice keeps the second
value, and a later margin call leaves the anchor present, by the theorem. -/
theorem C10_builder_setters_last_write_wins_witness :
    ((emptyBuilder.with_anchor WLRAnchor.TOP).with_anchor WLRAnchor.BOTTOM).platform_specific.wayland.anchor
      = some WLRAnchor.BOTTOM ∧
    (applyBuilderCalls (emptyBuilder.with_anchor WLRAnchor.TOP)
      [BuilderCall.margin 1 2 3 4]).platform_specific.wayland.anchor.isSome = true := by
  have h := C10_builder_setters_last_write_wins
  exact ⟨h.2.2.1 emptyBuilder WLRAnchor.TOP WLRAnchor.BOTTOM,
    (h.2.2.2.2.2.2 (emptyBuilder.with_anchor WLRAnchor.TOP)
      [BuilderCall.margin 1 2 3 4]).2.2.1 rfl⟩

end WinitWayland
